import Mathlib

/-!
Shallow embedding of the sensor-api service core
(`src/sensor_api/api/utils.py`, `src/sensor_api/api/validators.py`,
`src/sensor_api/data/models.py`, `src/sensor_api/storage/timescaledb.py`).

Modelling conventions:
* Python floats that pass the service's finiteness validation are modelled as
  rationals (`ℚ`); the validator additionally sees the non-finite values
  `nan` / `inf` / `-inf` through the `PyFloat` type.
* `datetime` values are modelled as integer epoch seconds (UTC implicit);
  `timedelta(days=d)` is `d * 86400` seconds.
* The database is a list of `SensorMetric` rows; SQL aggregation over a
  column ignores NULLs and yields NULL on an empty group, exactly as the
  backing store does.
* `Except String` stands for raising `ValidationException` with the given
  message.
-/

/-- Python float value as seen by the ingestion validator: either a finite
number (modelled as a rational) or one of the non-finite floats. -/
inductive PyFloat where
  | finite (q : ℚ)
  | nan
  | inf
  | ninf
deriving DecidableEq

/-- Models `math.isfinite` on a `PyFloat`. -/
def PyFloat.isFinite : PyFloat → Bool
  | .finite _ => true
  | _ => false

/-- Enum `Statistic` from `data/models.py`. -/
inductive Statistic where
  | MIN
  | MAX
  | AVG
  | SUM
deriving DecidableEq

/-- The `.value` string of each `Statistic` member. -/
def Statistic.value : Statistic → String
  | .MIN => "min"
  | .MAX => "max"
  | .AVG => "average"
  | .SUM => "sum"

/-- Enum `MetricType` from `data/models.py`. -/
inductive MetricType where
  | TEMPERATURE
  | HUMIDITY
  | PRESSURE
deriving DecidableEq

/-- The `.value` string of each `MetricType` member. -/
def MetricType.value : MetricType → String
  | .TEMPERATURE => "temperature"
  | .HUMIDITY => "humidity"
  | .PRESSURE => "pressure"

/-- `MetricType.__members__.values()` in declaration order. -/
def MetricType.members : List MetricType :=
  [.TEMPERATURE, .HUMIDITY, .PRESSURE]

/-! ## Python string primitives

The Python string methods used by the core (`str.strip`, `str.lower`,
`str.split(",")`) are modelled structurally on the character list of the
string, so that every definition evaluates inside the kernel. -/

/-- Whitespace as stripped by Python `str.strip()` (the ASCII whitespace
characters). -/
def pyIsSpace (c : Char) : Bool :=
  c = ' ' ∨ c = '\t' ∨ c = '\n' ∨ c = '\r' ∨ c = '\x0b' ∨ c = '\x0c'

/-- Python `str.strip()`: removes leading and trailing whitespace. -/
def pyStrip (s : String) : String :=
  String.mk (((s.data.dropWhile pyIsSpace).reverse.dropWhile pyIsSpace).reverse)

/-- Python `str.lower()` on the ASCII range (`Char.toLower` lowercases
exactly the letters `A`-`Z`, which covers every alias the service accepts). -/
def pyLower (s : String) : String :=
  String.mk (s.data.map Char.toLower)

/-- Recursion core of `str.split(",")`: `cur` holds the characters of the
current field in reverse. -/
def splitCommaGo (cur : List Char) : List Char → List String
  | [] => [String.mk cur.reverse]
  | c :: rest =>
      if c = ',' then String.mk cur.reverse :: splitCommaGo [] rest
      else splitCommaGo (c :: cur) rest

/-- Python `str.split(",")` (note `"".split(",") == [""]`). -/
def pySplitComma (s : String) : List String :=
  splitCommaGo [] s.data

/-! ## Parameter normalizer (`api/utils.py`) -/

/-- Recursion core of `_dedupe_preserve_order`: walks the items keeping the
first occurrence of each non-empty item, `seen` being the set of items
already emitted. -/
def dedupeGo (seen : List String) : List String → List String
  | [] => []
  | it :: rest =>
      if it ≠ "" ∧ it ∉ seen then it :: dedupeGo (it :: seen) rest
      else dedupeGo seen rest

/-- `_dedupe_preserve_order` from `api/utils.py`: drops empty strings and
duplicates, keeping first occurrences in order. -/
def dedupe_preserve_order (items : List String) : List String :=
  dedupeGo [] items

/-- Comma-split, trimmed, non-empty tokens of a raw parameter string:
`[p.strip() for p in raw.split(",")]` filtered by truthiness. -/
def paramTokens (raw : String) : List String :=
  ((pySplitComma raw).map pyStrip).filter (fun p => p ≠ "")

/-- `parse_sensors_param` from `api/utils.py`. `none` models Python `None`
(absent); a falsy (empty) string is treated like `None`. -/
def parse_sensors_param (raw : Option String) : Option (List String) :=
  match raw with
  | none => none
  | some s =>
      if s = "" then none
      else
        let result := dedupe_preserve_order (paramTokens s)
        if result = [] then none else some result

/-- `parse_metrics_param` from `api/utils.py`. -/
def parse_metrics_param (raw : Option String) : List String :=
  match raw with
  | none => []
  | some s =>
      if s = "" then []
      else dedupe_preserve_order (paramTokens s)

/-- `parse_stat` from `api/utils.py`: normalizes `(raw or "average")` by
stripping and lowercasing, then looks the result up in the alias map. -/
def parse_stat (raw : Option String) : Except String Statistic :=
  let base := match raw with
    | none => "average"
    | some s => if s = "" then "average" else s
  let norm := pyLower (pyStrip base)
  if norm = "average" then .ok .AVG
  else if norm = "min" then .ok .MIN
  else if norm = "max" then .ok .MAX
  else if norm = "sum" then .ok .SUM
  else .error "Invalid 'stat' value. Use one of: average, min, max, sum"

/-- Seconds in one day; `timedelta(days=d)` is `d * secondsPerDay`. -/
def secondsPerDay : Int := 86400

/-- `compute_date_range_from_days` from `api/utils.py`. The `now` argument
is always supplied here (the Python default `datetime.now(UTC)` is the
caller's current instant). -/
def compute_date_range_from_days (days : Option Int) (now : Int) :
    Except String (Int × Int) :=
  match days with
  | some d =>
      if d < 1 ∨ d > 31 then .error "'days' must be between 1 and 31"
      else .ok (now - d * secondsPerDay, now)
  | none => .ok (now - 1 * secondsPerDay, now)

/-! ## Payload validator (`api/validators.py`) -/

/-- Body payload of the ingestion route (`SensorIngestPayload` in
`data/models.py`); `metrics` is the decoded dict in insertion order. -/
structure SensorIngestPayload where
  location : String
  sensor_type : String
  metrics : List (String × PyFloat)
  timestamp : Option Int := none
deriving DecidableEq

/-- The set `{m.value for m in MetricType.__members__.values()}`. -/
def allowed_metrics : List String :=
  MetricType.members.map MetricType.value

/-- The per-entry loop of `validate_ingest_payload`: for each metric entry
in mapping order, check the name is a non-empty string, then that it is a
recognized metric, then that the value is finite; the first failure wins. -/
def check_metric_entries : List (String × PyFloat) → Except String Unit
  | [] => .ok ()
  | (name, value) :: rest =>
      if pyStrip name = "" then
        .error "Metric names must be non-empty strings"
      else if name ∉ allowed_metrics then
        .error ("Unknown metric '" ++ name ++ "'. See /api/v1/metrics for allowed values")
      else if ¬ value.isFinite then
        .error ("Metric '" ++ name ++ "' must be a finite number")
      else check_metric_entries rest

/-- `validate_ingest_payload` from `api/validators.py`. The `isinstance`
checks of the source are discharged by typing (`metrics` is always a dict,
`sensor_type`/`location` always strings after decoding). -/
def validate_ingest_payload (sensor_id : String) (payload : SensorIngestPayload) :
    Except String Unit :=
  if sensor_id = "" ∨ pyStrip sensor_id = "" then
    .error "sensor_id cannot be empty"
  else if payload.metrics = [] then
    .error "At least one metric is required"
  else if pyStrip payload.sensor_type = "" then
    .error "'sensor_type' must be a non-empty string"
  else if pyStrip payload.location = "" then
    .error "'location' must be a non-empty string"
  else check_metric_entries payload.metrics

/-! ## Data model and storage (`data/models.py`, `storage/timescaledb.py`) -/

/-- One row of the `sensor_metrics` hypertable (`SensorMetric` in
`data/models.py`): the metric columns are nullable floats. -/
structure SensorMetric where
  timestamp : Int
  sensor_id : String
  location : String
  sensor_type : String
  temperature : Option ℚ
  humidity : Option ℚ
  pressure : Option ℚ
deriving DecidableEq

/-- Attribute names visible on the `SensorMetric` declarative class, as
probed by Python `hasattr`: its declared columns, its classmethod, the
dunder table declarations, and the attributes inherited from the
declarative base. -/
def sensorMetricAttrs : List String :=
  ["timestamp", "sensor_id", "location", "sensor_type",
   "temperature", "humidity", "pressure",
   "from_sensor_data", "__tablename__", "__table_args__",
   "metadata", "registry"]

/-- Models `hasattr(SensorMetric, name)`. -/
def hasattr_SensorMetric (name : String) : Bool :=
  name ∈ sensorMetricAttrs

/-- Names of the nullable numeric metric columns of `SensorMetric`. The
theorems about query execution are stated under the hypothesis that every
selected column is one of these: selecting a non-numeric column makes the
real aggregation fail in the store, which this pure model does not follow. -/
def numeric_metric_columns : List String :=
  ["temperature", "humidity", "pressure"]

/-- `SensorData` from `data/models.py` (the ingestion domain object); its
optional timestamp has already been defaulted to the current instant, so it
is a plain value here. Metric values are validated finite floats. -/
structure SensorData where
  sensor_id : String
  metrics : List (String × ℚ)
  timestamp : Int
  location : String
  sensor_type : String
deriving DecidableEq

/-- Python `dict.get` on the metrics mapping (keys are unique). -/
def dictGet (d : List (String × ℚ)) (k : String) : Option ℚ :=
  (d.find? (fun e => e.1 = k)).map (fun e => e.2)

/-- `SensorMetric.from_sensor_data` from `data/models.py`. -/
def SensorMetric.from_sensor_data (data : SensorData) : SensorMetric :=
  { timestamp := data.timestamp
    sensor_id := data.sensor_id
    location := data.location
    sensor_type := data.sensor_type
    temperature := dictGet data.metrics "temperature"
    humidity := dictGet data.metrics "humidity"
    pressure := dictGet data.metrics "pressure" }

/-- `SensorData.to_db_record` from `data/models.py`. -/
def SensorData.to_db_record (d : SensorData) : SensorMetric :=
  SensorMetric.from_sensor_data d

/-- `TimescaleDBHandler.store_sensor_data`: a single-row insert of the
converted record. -/
def store_sensor_data (db : List SensorMetric) (data : SensorData) :
    List SensorMetric :=
  db ++ [data.to_db_record]

/-- `SensorQuery` from `data/models.py`. -/
structure SensorQuery where
  sensor_ids : Option (List String) := none
  metrics : List String := []
  statistic : Statistic := .AVG
  start_date : Option Int := none
  end_date : Option Int := none
deriving DecidableEq

/-- `SensorQuery.get_date_filter`: `end` defaults to `now`, `start` to
`end` minus one day. -/
def SensorQuery.get_date_filter (q : SensorQuery) (now : Int) : Int × Int :=
  let e := q.end_date.getD now
  (q.start_date.getD (e - secondsPerDay), e)

/-- `query.metrics or [m.value for m in MetricType.__members__.values()]`:
the requested metric names, defaulting to all known metrics when the
(falsy) empty list was given. -/
def SensorQuery.requested_metrics (q : SensorQuery) : List String :=
  if q.metrics = [] then MetricType.members.map MetricType.value else q.metrics

/-- The requested metric names that survive the
`hasattr(SensorMetric, metric_name)` guard: exactly the columns handed to
the aggregation in `query_sensor_data` (the spec's "effective metric set"). -/
def SensorQuery.metric_column_names (q : SensorQuery) : List String :=
  q.requested_metrics.filter (fun n => hasattr_SensorMetric n)

/-- `MetricResult` from `data/models.py`. -/
structure MetricResult where
  metric : String
  value : ℚ
  statistic : String
deriving DecidableEq

/-- `SensorQueryResult` from `data/models.py`. -/
structure SensorQueryResult where
  sensor_id : String
  metrics : List MetricResult
  timestamp : Int
deriving DecidableEq

/-- SQL aggregate semantics of `Statistic.to_sqlalchemy_func`: the chosen
aggregate over the non-NULL values of a column within one group; NULL
(`none`) on an empty group. For `avg`, the sum divided by the count. -/
def Statistic.agg (s : Statistic) (vals : List ℚ) : Option ℚ :=
  match vals with
  | [] => none
  | v :: vs =>
      some (match s with
        | .MIN => vs.foldl min v
        | .MAX => vs.foldl max v
        | .SUM => vs.foldl (· + ·) v
        | .AVG => vs.foldl (· + ·) v / ((vs.length : ℚ) + 1))

/-- Value of a numeric metric column on a row, by column name; `none` for
names that are not numeric metric columns (the model's theorems restrict
queries to `numeric_metric_columns`, see there). -/
def column_value (name : String) (r : SensorMetric) : Option ℚ :=
  if name = "temperature" then r.temperature
  else if name = "humidity" then r.humidity
  else if name = "pressure" then r.pressure
  else none

/-- Row-level WHERE clause of the grouped statement: the optional
`sensor_id IN (...)` filter (skipped when `query.sensor_ids` is falsy, i.e.
`None` or the empty list) and the inclusive timestamp range. -/
def SensorQuery.row_matches (q : SensorQuery) (now : Int) (r : SensorMetric) :
    Bool :=
  let sd := q.get_date_filter now
  (match q.sensor_ids with
   | none => true
   | some l => if l = [] then true else decide (r.sensor_id ∈ l)) &&
    decide (sd.1 ≤ r.timestamp) && decide (r.timestamp ≤ sd.2)

/-- First occurrences of the keys of the grouped rows. The order in which
the store returns `GROUP BY sensor_id` groups is store-defined; the model
fixes it to first appearance among the filtered rows. -/
def first_seen_go (seen : List String) : List String → List String
  | [] => []
  | x :: xs =>
      if x ∈ seen then first_seen_go seen xs
      else x :: first_seen_go (x :: seen) xs

/-- Group keys of the grouped statement, in model order. -/
def first_seen (l : List String) : List String :=
  first_seen_go [] l

/-- Rows of the store contributing to the group of `sid` under the query's
WHERE clause: the rows passing the range and sensor filters whose
`sensor_id` is the group key (the `GROUP BY sensor_id` grouping). -/
def group_rows (q : SensorQuery) (now : Int) (db : List SensorMetric)
    (sid : String) : List SensorMetric :=
  (db.filter (fun r => q.row_matches now r)).filter (fun r => r.sensor_id = sid)

/-- Aggregated value of one selected column over the group of `sid`: the
labelled aggregate `agg_func(column).label(...)` of the grouped statement
for that column. -/
def group_agg (q : SensorQuery) (now : Int) (db : List SensorMetric)
    (sid : String) (name : String) : Option ℚ :=
  q.statistic.agg ((group_rows q now db sid).filterMap (column_value name))

/-- The inner result-shaping loop of `query_sensor_data` for one row of
the grouped statement: one `MetricResult` per selected column whose
aggregated value is non-NULL, in requested order. -/
def sensor_metrics (q : SensorQuery) (now : Int) (db : List SensorMetric)
    (sid : String) : List MetricResult :=
  q.metric_column_names.filterMap (fun name =>
    (group_agg q now db sid name).map (fun v =>
      { metric := name, value := v, statistic := q.statistic.value }))

/-- The `SensorQueryResult` emitted for one row of the grouped statement:
dropped (`none`) when its metrics list is empty, otherwise carrying the
query's end date as its representative timestamp. -/
def sensor_result (q : SensorQuery) (now : Int) (db : List SensorMetric)
    (sid : String) : Option SensorQueryResult :=
  if sensor_metrics q now db sid = [] then none
  else some { sensor_id := sid, metrics := sensor_metrics q now db sid,
              timestamp := (q.get_date_filter now).2 }

/-- `TimescaleDBHandler.query_sensor_data`. Returns the shaped result list
together with the number of statements executed against the store during
the call: the source builds one grouped SELECT and always executes it
exactly once (there is no early return), so the second component is `1`
unconditionally. -/
def query_sensor_data (q : SensorQuery) (now : Int) (db : List SensorMetric) :
    List SensorQueryResult × Nat :=
  let filtered := db.filter (fun r => q.row_matches now r)
  ((first_seen (filtered.map (fun r => r.sensor_id))).filterMap
    (fun sid => sensor_result q now db sid), 1)

/-! ## Auxiliary definitions for the theorems -/

deriving instance DecidableEq for Except

/-- First-seen-order de-duplication stated the way the specification words
it: walk the tokens left to right and append each non-empty token the first
time it is seen. Used to characterize `dedupe_preserve_order`. -/
def firstSeenFold (tokens : List String) : List String :=
  tokens.foldl (fun acc t => if t = "" ∨ t ∈ acc then acc else acc ++ [t]) []

/-- Whether `sub` starts the list `l`. -/
def charsStartWith : List Char → List Char → Bool
  | [], _ => true
  | _ :: _, [] => false
  | a :: as, b :: bs => a = b && charsStartWith as bs

/-- Whether `sub` occurs contiguously inside the list. -/
def charsContainSeq (sub : List Char) : List Char → Bool
  | [] => sub.isEmpty
  | c :: rest => charsStartWith sub (c :: rest) || charsContainSeq sub rest

/-- Whether the string `s` mentions `sub` as a substring. -/
def strMentions (s sub : String) : Bool :=
  charsContainSeq sub.data s.data

/-- Validator that performs the metric-entry checks in the order the claim
lists them: the four scalar checks, then recognition of every metric key
over the whole mapping, then finiteness of every metric value over the
whole mapping, the first failing check determining the error. Stated from
the claim's wording, to be compared with `validate_ingest_payload`. -/
def validate_ingest_claim_order (sensor_id : String)
    (payload : SensorIngestPayload) : Except String Unit :=
  if sensor_id = "" ∨ pyStrip sensor_id = "" then
    .error "sensor_id cannot be empty"
  else if payload.metrics = [] then
    .error "At least one metric is required"
  else if pyStrip payload.sensor_type = "" then
    .error "'sensor_type' must be a non-empty string"
  else if pyStrip payload.location = "" then
    .error "'location' must be a non-empty string"
  else
    match payload.metrics.find? (fun e => decide (e.1 ∉ allowed_metrics)) with
    | some e =>
        .error ("Unknown metric '" ++ e.1 ++ "'. See /api/v1/metrics for allowed values")
    | none =>
        match payload.metrics.find? (fun e => ¬ e.2.isFinite) with
        | some e => .error ("Metric '" ++ e.1 ++ "' must be a finite number")
        | none => .ok ()

/-- Payload whose first metric entry has a non-finite value and whose
second entry has an unrecognized key: the two possible first failures of
the entry checks disagree on it. -/
def pC6 : SensorIngestPayload :=
  { location := "room", sensor_type := "thermo",
    metrics := [("temperature", .nan), ("voltage", .finite 1)] }

/-- Payload with an unknown metric key and an empty location. -/
def pC3 : SensorIngestPayload :=
  { location := "", sensor_type := "thermo",
    metrics := [("voltage", .finite 1)] }

/-- Query whose only requested metric is unsupported. -/
def qC8 : SensorQuery :=
  { sensor_ids := none, metrics := ["voltage"], statistic := .AVG,
    start_date := some 0, end_date := some 100 }

/-- A stored row inside the range of `qC8` and `qC9`. -/
def rowC8 : SensorMetric :=
  ⟨50, "s1", "room", "thermo", some 5, none, none⟩

/-- Query with defaulted metrics over the range holding `rowC8`. -/
def qC9 : SensorQuery :=
  { sensor_ids := none, metrics := [], statistic := .MIN,
    start_date := some 0, end_date := some 100 }

/-- Query requesting non-metric attribute names together with an unknown
name. -/
def qC10 : SensorQuery :=
  { metrics := ["location", "sensor_type", "sensor_id", "timestamp", "voltage"] }

/-! ## Helper lemmas -/

theorem pyStrip_empty : pyStrip "" = "" := by decide

/-! ## Claim C4: statistic parsing -/

/-- C4 (counterexample): the claim says every non-empty input that is not a
casing variant of `average`/`min`/`max`/`sum` fails, but `parse_stat`
strips surrounding whitespace before matching: `" min"` is non-empty, is
not a casing variant of any alias (its lowercasing is `" min"`), yet it
parses successfully as the `min` statistic. -/
theorem parse_stat_claim_counterexample :
    parse_stat (some " min") = .ok Statistic.MIN ∧
    " min" ≠ "" ∧
    pyLower " min" ≠ "average" ∧ pyLower " min" ≠ "min" ∧
    pyLower " min" ≠ "max" ∧ pyLower " min" ≠ "sum" := by
  decide

/-- C4 (amended): `parse_stat` maps any input whose whitespace-stripped
form is a casing variant of `average`/`min`/`max`/`sum` to the matching
statistic, returns the average statistic when the input is absent or the
empty string, and fails for every other non-empty input string. -/
theorem parse_stat_spec :
    parse_stat none = .ok Statistic.AVG ∧
    parse_stat (some "") = .ok Statistic.AVG ∧
    ∀ raw : String,
      (pyLower (pyStrip raw) = "average" → parse_stat (some raw) = .ok Statistic.AVG) ∧
      (pyLower (pyStrip raw) = "min" → parse_stat (some raw) = .ok Statistic.MIN) ∧
      (pyLower (pyStrip raw) = "max" → parse_stat (some raw) = .ok Statistic.MAX) ∧
      (pyLower (pyStrip raw) = "sum" → parse_stat (some raw) = .ok Statistic.SUM) ∧
      (raw ≠ "" →
        pyLower (pyStrip raw) ∉ (["average", "min", "max", "sum"] : List String) →
        parse_stat (some raw) =
          .error "Invalid 'stat' value. Use one of: average, min, max, sum") := by
  refine ⟨by decide, by decide, fun raw => ?_⟩
  by_cases h0 : raw = ""
  · subst h0
    exact ⟨fun h => by exact absurd h (by decide),
           fun h => by exact absurd h (by decide),
           fun h => by exact absurd h (by decide),
           fun h => by exact absurd h (by decide),
           fun h _ => absurd rfl h⟩
  · refine ⟨fun h => ?_, fun h => ?_, fun h => ?_, fun h => ?_, fun _ hmem => ?_⟩
    · simp [parse_stat, h0, h]
    · simp [parse_stat, h0, h]
    · simp [parse_stat, h0, h]
    · simp [parse_stat, h0, h]
    · simp only [List.mem_cons, List.not_mem_nil, or_false, not_or] at hmem
      obtain ⟨h1, h2, h3, h4⟩ := hmem
      simp [parse_stat, h0, h1, h2, h3, h4]

/-- C4 (witness): concrete instances of `parse_stat_spec`. -/
theorem parse_stat_spec_witness :
    parse_stat (some " MIN ") = .ok Statistic.MIN ∧
    parse_stat (some "volt") =
      .error "Invalid 'stat' value. Use one of: average, min, max, sum" :=
  ⟨(parse_stat_spec.2.2 " MIN ").2.1 (by decide),
   (parse_stat_spec.2.2 "volt").2.2.2.2 (by decide) (by decide)⟩

/-! ## Claim C5: date-range computation -/

/-- C5: `compute_date_range_from_days` returns the window `(now − days,
now)` for every `days` in `[1, 31]`, a one-day window ending at `now` when
`days` is absent, and fails for every `days` outside `[1, 31]`. -/
theorem compute_date_range_from_days_spec :
    ∀ now : Int,
      compute_date_range_from_days none now = .ok (now - 1 * secondsPerDay, now) ∧
      ∀ d : Int,
        (1 ≤ d → d ≤ 31 →
          compute_date_range_from_days (some d) now =
            .ok (now - d * secondsPerDay, now)) ∧
        ((d < 1 ∨ 31 < d) →
          compute_date_range_from_days (some d) now =
            .error "'days' must be between 1 and 31") := by
  intro now
  refine ⟨rfl, fun d => ⟨fun h1 h2 => ?_, fun h => ?_⟩⟩
  · simp [compute_date_range_from_days, show ¬(d < 1 ∨ d > 31) by omega]
  · simp [compute_date_range_from_days, show d < 1 ∨ d > 31 by omega]

/-- C5 (witness): the boundary cases `days = 1, 31` succeed and
`days = 0, 32` fail, at `now = 1000`. -/
theorem compute_date_range_from_days_spec_witness :
    compute_date_range_from_days (some 1) 1000 = .ok (1000 - 1 * secondsPerDay, 1000) ∧
    compute_date_range_from_days (some 31) 1000 = .ok (1000 - 31 * secondsPerDay, 1000) ∧
    compute_date_range_from_days (some 0) 1000 = .error "'days' must be between 1 and 31" ∧
    compute_date_range_from_days (some 32) 1000 = .error "'days' must be between 1 and 31" :=
  ⟨((compute_date_range_from_days_spec 1000).2 1).1 (by norm_num) (by norm_num),
   ((compute_date_range_from_days_spec 1000).2 31).1 (by norm_num) (by norm_num),
   ((compute_date_range_from_days_spec 1000).2 0).2 (by norm_num),
   ((compute_date_range_from_days_spec 1000).2 32).2 (by norm_num)⟩

/-! ## Claim C7: sensors/metrics parameter parsing -/

theorem dedupeGo_cons_pos {it : String} {seen : List String}
    (rest : List String) (h : it ≠ "" ∧ it ∉ seen) :
    dedupeGo seen (it :: rest) = it :: dedupeGo (it :: seen) rest := by
  simp only [dedupeGo]; rw [if_pos h]

theorem dedupeGo_cons_neg {it : String} {seen : List String}
    (rest : List String) (h : ¬(it ≠ "" ∧ it ∉ seen)) :
    dedupeGo seen (it :: rest) = dedupeGo seen rest := by
  simp only [dedupeGo]; rw [if_neg h]

theorem dedupeGo_sublist (l : List String) :
    ∀ seen : List String, List.Sublist (dedupeGo seen l) l := by
  induction l with
  | nil => intro seen; simp [dedupeGo]
  | cons it rest ih =>
      intro seen
      by_cases h : it ≠ "" ∧ it ∉ seen
      · rw [dedupeGo_cons_pos rest h]
        exact List.Sublist.cons₂ it (ih (it :: seen))
      · rw [dedupeGo_cons_neg rest h]
        exact List.Sublist.cons it (ih seen)

theorem dedupeGo_nodup (l : List String) :
    ∀ seen : List String,
      (dedupeGo seen l).Nodup ∧ ∀ x ∈ dedupeGo seen l, x ∉ seen := by
  induction l with
  | nil => intro seen; simp [dedupeGo]
  | cons it rest ih =>
      intro seen
      by_cases h : it ≠ "" ∧ it ∉ seen
      · obtain ⟨hn, hmem⟩ := ih (it :: seen)
        rw [dedupeGo_cons_pos rest h]
        refine ⟨List.nodup_cons.2 ⟨fun hc => (hmem it hc) (by simp), hn⟩, ?_⟩
        intro x hx
        rcases List.mem_cons.1 hx with rfl | hx
        · exact h.2
        · exact fun hc => (hmem x hx) (by simp [hc])
      · obtain ⟨hn, hmem⟩ := ih seen
        rw [dedupeGo_cons_neg rest h]
        exact ⟨hn, hmem⟩

theorem dedupeGo_mem (l : List String) :
    ∀ seen x, x ∈ l → x ≠ "" → x ∉ seen → x ∈ dedupeGo seen l := by
  induction l with
  | nil => intro seen x hx; simp at hx
  | cons it rest ih =>
      intro seen x hx hne hns
      rcases List.mem_cons.1 hx with rfl | hx
      · rw [dedupeGo_cons_pos rest ⟨hne, hns⟩]
        exact List.mem_cons_self _ _
      · by_cases h : it ≠ "" ∧ it ∉ seen
        · rw [dedupeGo_cons_pos rest h]
          by_cases hxy : x = it
          · subst hxy; exact List.mem_cons_self _ _
          · exact List.mem_cons.2 (Or.inr
              (ih (it :: seen) x hx hne (by simp [hxy, hns])))
        · rw [dedupeGo_cons_neg rest h]
          exact ih seen x hx hne hns

theorem dedupeGo_filter (l : List String) :
    ∀ seen : List String,
      dedupeGo seen (l.filter (fun p => p ≠ "")) = dedupeGo seen l := by
  induction l with
  | nil => intro seen; rfl
  | cons it rest ih =>
      intro seen
      by_cases he : it = ""
      · rw [List.filter_cons_of_neg (by simp [he]), ih,
          dedupeGo_cons_neg rest (by simp [he])]
      · rw [List.filter_cons_of_pos (by simp [he])]
        by_cases h : it ≠ "" ∧ it ∉ seen
        · rw [dedupeGo_cons_pos _ h, dedupeGo_cons_pos rest h, ih]
        · rw [dedupeGo_cons_neg _ h, dedupeGo_cons_neg rest h, ih]

theorem dedupeGo_foldl (l : List String) :
    ∀ seen acc : List String, (∀ x, x ∈ seen ↔ x ∈ acc) →
      l.foldl (fun a t => if t = "" ∨ t ∈ a then a else a ++ [t]) acc =
        acc ++ dedupeGo seen l := by
  induction l with
  | nil => intro seen acc _; simp [dedupeGo]
  | cons it rest ih =>
      intro seen acc hiff
      by_cases h : it = "" ∨ it ∈ acc
      · have hcond : ¬(it ≠ "" ∧ it ∉ seen) := by
          rcases h with h | h
          · simp [h]
          · simp [(hiff it).2 h]
        have hstep : (if it = "" ∨ it ∈ acc then acc else acc ++ [it]) = acc :=
          if_pos h
        rw [List.foldl_cons]
        show List.foldl _ (if it = "" ∨ it ∈ acc then acc else acc ++ [it]) rest = _
        rw [hstep, ih seen acc hiff, dedupeGo_cons_neg rest hcond]
      · push_neg at h
        have hcond : it ≠ "" ∧ it ∉ seen := ⟨h.1, fun hc => h.2 ((hiff it).1 hc)⟩
        have hiff' : ∀ x, x ∈ it :: seen ↔ x ∈ acc ++ [it] := by
          intro x; simp [hiff x, or_comm]
        have hstep : (if it = "" ∨ it ∈ acc then acc else acc ++ [it]) = acc ++ [it] :=
          if_neg (by simp [h.1, h.2])
        rw [List.foldl_cons]
        show List.foldl _ (if it = "" ∨ it ∈ acc then acc else acc ++ [it]) rest = _
        rw [hstep, ih (it :: seen) (acc ++ [it]) hiff',
          dedupeGo_cons_pos rest hcond]
        simp

/-- C7: `parse_sensors_param` and `parse_metrics_param` both split on
commas, strip whitespace, drop empty tokens and de-duplicate keeping first
occurrences (`firstSeenFold` of the stripped tokens); they agree except
that an absent input or one yielding no tokens gives `none` for sensors
and `[]` for metrics. -/
theorem parse_params_spec :
    parse_sensors_param none = none ∧
    parse_metrics_param none = [] ∧
    parse_sensors_param (some "") = none ∧
    parse_metrics_param (some "") = [] ∧
    ∀ raw : String,
      (parse_sensors_param (some raw) =
        if parse_metrics_param (some raw) = [] then none
        else some (parse_metrics_param (some raw))) ∧
      (parse_metrics_param (some raw)).Nodup ∧
      parse_metrics_param (some raw) = firstSeenFold ((pySplitComma raw).map pyStrip) ∧
      (∀ t ∈ (pySplitComma raw).map pyStrip, t ≠ "" →
        t ∈ parse_metrics_param (some raw)) := by
  refine ⟨rfl, rfl, rfl, rfl, fun raw => ⟨?_, ?_, ?_, ?_⟩⟩
  · by_cases h0 : raw = ""
    · subst h0; rfl
    · simp only [parse_sensors_param, parse_metrics_param, if_neg h0]
  · by_cases h0 : raw = ""
    · simp [h0, parse_metrics_param]
    · simp only [parse_metrics_param, if_neg h0]
      exact (dedupeGo_nodup _ []).1
  · by_cases h0 : raw = ""
    · subst h0; rfl
    · simp only [parse_metrics_param, if_neg h0, paramTokens,
        dedupe_preserve_order, firstSeenFold]
      rw [dedupeGo_filter, dedupeGo_foldl _ [] [] (by simp)]
      rfl
  · intro t ht hne
    have h0 : raw ≠ "" := by
      rintro rfl
      have htok : (pySplitComma "").map pyStrip = [""] := by decide
      rw [htok] at ht
      exact hne (by simpa using ht)
    simp only [parse_metrics_param, if_neg h0, paramTokens, dedupe_preserve_order]
    exact dedupeGo_mem _ [] t (List.mem_filter.2 ⟨ht, by simp [hne]⟩) hne (by simp)

/-- C7 (witness): concrete instance of `parse_params_spec`. -/
theorem parse_params_spec_witness :
    "a" ∈ parse_metrics_param (some "b,a ,b") :=
  (parse_params_spec.2.2.2.2 "b,a ,b").2.2.2 "a" (by decide) (by decide)

/-! ## Claims C6 and C3: ingestion validation -/

/-- An entry of the metrics mapping passing all three per-entry checks. -/
def entryOk (e : String × PyFloat) : Prop :=
  pyStrip e.1 ≠ "" ∧ e.1 ∈ allowed_metrics ∧ e.2.isFinite = true

instance (e : String × PyFloat) : Decidable (entryOk e) := by
  unfold entryOk; infer_instance

theorem check_metric_entries_append (pre : List (String × PyFloat)) :
    ∀ l, (∀ e ∈ pre, entryOk e) →
      check_metric_entries (pre ++ l) = check_metric_entries l := by
  induction pre with
  | nil => intro l _; rfl
  | cons e rest ih =>
      intro l h
      obtain ⟨h1, h2, h3⟩ := h e (List.mem_cons_self _ _)
      obtain ⟨name, value⟩ := e
      simp only [List.cons_append, check_metric_entries]
      rw [if_neg h1, if_neg (by simpa using h2), if_neg (by simp [h3])]
      exact ih l (fun e he => h e (List.mem_cons_of_mem _ he))

theorem check_metric_entries_error_of_unknown (l : List (String × PyFloat)) :
    (∃ e ∈ l, e.1 ∉ allowed_metrics) →
    ∃ msg, check_metric_entries l = .error msg := by
  induction l with
  | nil => rintro ⟨e, he, _⟩; simp at he
  | cons hd rest ih =>
      rintro ⟨e, he, hunk⟩
      obtain ⟨name, value⟩ := hd
      simp only [check_metric_entries]
      by_cases hs : pyStrip name = ""
      · rw [if_pos hs]; exact ⟨_, rfl⟩
      · rw [if_neg hs]
        by_cases ha : name ∈ allowed_metrics
        · rw [if_neg (by simpa using ha)]
          by_cases hf : value.isFinite
          · rw [if_neg (by simp [hf])]
            rcases List.mem_cons.1 he with rfl | he'
            · exact absurd ha hunk
            · exact ih ⟨e, he', hunk⟩
          · rw [if_pos (by simpa using hf)]; exact ⟨_, rfl⟩
        · rw [if_pos (by simpa using ha)]; exact ⟨_, rfl⟩

theorem validate_ingest_payload_checks (sid : String) (p : SensorIngestPayload)
    (h1 : pyStrip sid ≠ "") (h2 : p.metrics ≠ [])
    (h3 : pyStrip p.sensor_type ≠ "") (h4 : pyStrip p.location ≠ "") :
    validate_ingest_payload sid p = check_metric_entries p.metrics := by
  have hsid : ¬(sid = "" ∨ pyStrip sid = "") := by
    rintro (rfl | h)
    · exact h1 pyStrip_empty
    · exact h1 h
  simp only [validate_ingest_payload]
  rw [if_neg hsid, if_neg h2, if_neg h3, if_neg h4]

/-- C6 (counterexample): on a payload whose first metric entry has a
non-finite value and whose second has an unrecognized key, the claimed
check order (all keys recognized before any value finiteness) would report
the unknown key, but `validate_ingest_payload` reports the non-finite
value: the per-entry checks are interleaved, not sequential passes. -/
theorem validate_ingest_order_counterexample :
    validate_ingest_payload "s1" pC6 = .error "Metric 'temperature' must be a finite number" ∧
    validate_ingest_claim_order "s1" pC6 =
      .error "Unknown metric 'voltage'. See /api/v1/metrics for allowed values" ∧
    validate_ingest_payload "s1" pC6 ≠ validate_ingest_claim_order "s1" pC6 := by
  decide

/-- C6 (amended): `validate_ingest_payload` checks, in order: `sensor_id`
non-empty after trimming, `metrics` non-empty, `sensor_type` non-empty
after trimming, `location` non-empty after trimming, then each metric
entry in mapping order — key non-empty, key recognized, value finite — the
first failing check determining the error; a payload passing every check
validates successfully. -/
theorem validate_ingest_order_spec :
    (∀ sid p, pyStrip sid = "" →
      validate_ingest_payload sid p = .error "sensor_id cannot be empty") ∧
    (∀ sid p, pyStrip sid ≠ "" → p.metrics = [] →
      validate_ingest_payload sid p = .error "At least one metric is required") ∧
    (∀ sid p, pyStrip sid ≠ "" → p.metrics ≠ [] → pyStrip p.sensor_type = "" →
      validate_ingest_payload sid p = .error "'sensor_type' must be a non-empty string") ∧
    (∀ sid p, pyStrip sid ≠ "" → p.metrics ≠ [] → pyStrip p.sensor_type ≠ "" →
      pyStrip p.location = "" →
      validate_ingest_payload sid p = .error "'location' must be a non-empty string") ∧
    (∀ sid p pre k v post,
      pyStrip sid ≠ "" → pyStrip p.sensor_type ≠ "" → pyStrip p.location ≠ "" →
      p.metrics = pre ++ (k, v) :: post →
      (∀ e ∈ pre, entryOk e) →
      (pyStrip k = "" →
        validate_ingest_payload sid p = .error "Metric names must be non-empty strings") ∧
      (pyStrip k ≠ "" → k ∉ allowed_metrics →
        validate_ingest_payload sid p =
          .error ("Unknown metric '" ++ k ++ "'. See /api/v1/metrics for allowed values")) ∧
      (pyStrip k ≠ "" → k ∈ allowed_metrics → v.isFinite = false →
        validate_ingest_payload sid p =
          .error ("Metric '" ++ k ++ "' must be a finite number"))) ∧
    (∀ sid p, pyStrip sid ≠ "" → p.metrics ≠ [] → pyStrip p.sensor_type ≠ "" →
      pyStrip p.location ≠ "" → (∀ e ∈ p.metrics, entryOk e) →
      validate_ingest_payload sid p = .ok ()) := by
  refine ⟨?_, ?_, ?_, ?_, ?_, ?_⟩
  · intro sid p h
    simp only [validate_ingest_payload]
    rw [if_pos (Or.inr h)]
  · intro sid p h1 h2
    have hsid : ¬(sid = "" ∨ pyStrip sid = "") := by
      rintro (rfl | h)
      · exact h1 pyStrip_empty
      · exact h1 h
    simp only [validate_ingest_payload]
    rw [if_neg hsid, if_pos h2]
  · intro sid p h1 h2 h3
    have hsid : ¬(sid = "" ∨ pyStrip sid = "") := by
      rintro (rfl | h)
      · exact h1 pyStrip_empty
      · exact h1 h
    simp only [validate_ingest_payload]
    rw [if_neg hsid, if_neg h2, if_pos h3]
  · intro sid p h1 h2 h3 h4
    have hsid : ¬(sid = "" ∨ pyStrip sid = "") := by
      rintro (rfl | h)
      · exact h1 pyStrip_empty
      · exact h1 h
    simp only [validate_ingest_payload]
    rw [if_neg hsid, if_neg h2, if_neg h3, if_pos h4]
  · intro sid p pre k v post h1 h3 h4 hm hpre
    have h2 : p.metrics ≠ [] := by simp [hm]
    have hbase : validate_ingest_payload sid p = check_metric_entries ((k, v) :: post) := by
      rw [validate_ingest_payload_checks sid p h1 h2 h3 h4, hm,
        check_metric_entries_append pre _ hpre]
    refine ⟨fun hk => ?_, fun hk hunk => ?_, fun hk hall hnf => ?_⟩
    · rw [hbase]
      simp only [check_metric_entries]
      rw [if_pos hk]
    · rw [hbase]
      simp only [check_metric_entries]
      rw [if_neg hk, if_pos (by simpa using hunk)]
    · rw [hbase]
      simp only [check_metric_entries]
      rw [if_neg hk, if_neg (by simpa using hall), if_pos (by simp [hnf])]
  · intro sid p h1 h2 h3 h4 hall
    rw [validate_ingest_payload_checks sid p h1 h2 h3 h4,
      show p.metrics = p.metrics ++ [] by simp,
      check_metric_entries_append p.metrics [] hall]
    rfl

/-- C6 (witness): concrete instances of `validate_ingest_order_spec`: a
fully valid payload validates, and the interleaved entry checks fire on
the first entry. -/
theorem validate_ingest_order_spec_witness :
    validate_ingest_payload "s1"
      { location := "room", sensor_type := "thermo",
        metrics := [("temperature", .finite 21)] } = .ok () ∧
    validate_ingest_payload "s1"
      { location := "room", sensor_type := "thermo",
        metrics := [("pressure", .inf), ("voltage", .finite 1)] } =
      .error "Metric 'pressure' must be a finite number" :=
  ⟨validate_ingest_order_spec.2.2.2.2.2 "s1" _ (by decide) (by decide) (by decide)
      (by decide) (by decide),
   (validate_ingest_order_spec.2.2.2.2.1 "s1" _ [] "pressure" .inf
      [("voltage", .finite 1)] (by decide) (by decide) (by decide) rfl
      (by decide)).2.2 (by decide) (by decide) (by decide)⟩

/-- C3 (counterexample): the payload `pC3` carries the unrecognized metric
key `"voltage"`, and validation does fail on it, but the raised error is
the empty-location one and does not name the offending key (the location
check precedes the metric checks), contradicting the claim that the
failure names the offending key on any such payload. -/
theorem unknown_metric_naming_counterexample :
    (∃ e ∈ pC3.metrics, e.1 ∉ allowed_metrics) ∧
    validate_ingest_payload "s1" pC3 = .error "'location' must be a non-empty string" ∧
    strMentions "'location' must be a non-empty string" "voltage" = false := by
  refine ⟨⟨("voltage", .finite 1), by decide, by decide⟩, by decide, by decide⟩

/-- C3 (amended): ingestion validation fails on any payload whose metrics
mapping contains an unrecognized key, and the error names the offending
key whenever it is the first failure in validation order (earlier checks
passing and the key being the first offending entry); a query whose
requested metrics contain a name that is not an attribute of the
`SensorMetric` class silently drops that name from the selected columns
and never errors. -/
theorem unknown_metric_handling_spec :
    (∀ sid p, (∃ e ∈ p.metrics, e.1 ∉ allowed_metrics) →
      ∃ msg, validate_ingest_payload sid p = .error msg) ∧
    (∀ sid p pre k v post,
      pyStrip sid ≠ "" → pyStrip p.sensor_type ≠ "" → pyStrip p.location ≠ "" →
      p.metrics = pre ++ (k, v) :: post →
      (∀ e ∈ pre, entryOk e) →
      pyStrip k ≠ "" → k ∉ allowed_metrics →
      validate_ingest_payload sid p =
        .error ("Unknown metric '" ++ k ++ "'. See /api/v1/metrics for allowed values")) ∧
    (∀ (q : SensorQuery) (name : String),
      hasattr_SensorMetric name = false → name ∉ q.metric_column_names) ∧
    hasattr_SensorMetric "voltage" = false := by
  refine ⟨?_, ?_, ?_, by decide⟩
  · intro sid p h
    simp only [validate_ingest_payload]
    split
    · exact ⟨_, rfl⟩
    · split
      · exact ⟨_, rfl⟩
      · split
        · exact ⟨_, rfl⟩
        · split
          · exact ⟨_, rfl⟩
          · exact check_metric_entries_error_of_unknown p.metrics h
  · intro sid p pre k v post h1 h3 h4 hm hpre hk hunk
    have h2 : p.metrics ≠ [] := by simp [hm]
    rw [validate_ingest_payload_checks sid p h1 h2 h3 h4, hm,
      check_metric_entries_append pre _ hpre]
    simp only [check_metric_entries]
    rw [if_neg hk, if_pos (by simpa using hunk)]
  · intro q name h hmem
    rw [SensorQuery.metric_column_names] at hmem
    exact absurd (List.mem_filter.1 hmem).2 (by simp [h])

/-- C3 (witness): concrete instances of `unknown_metric_handling_spec`:
the unknown key `"voltage"` is named although it sits in second position,
after a passing `"temperature"` entry. -/
theorem unknown_metric_handling_spec_witness :
    validate_ingest_payload "s1"
      { location := "room", sensor_type := "thermo",
        metrics := [("temperature", .finite 2), ("voltage", .finite 1)] } =
      .error "Unknown metric 'voltage'. See /api/v1/metrics for allowed values" ∧
    "voltage" ∉
      SensorQuery.metric_column_names { metrics := ["voltage", "temperature"] } :=
  ⟨unknown_metric_handling_spec.2.1 "s1" _ [("temperature", .finite 2)]
      "voltage" (.finite 1) []
      (by decide) (by decide) (by decide) rfl (by decide) (by decide) (by decide),
   unknown_metric_handling_spec.2.2.1 _ "voltage" (by decide)⟩

/-! ## Claim C10: effective metric resolution via attribute lookup -/

/-- C10: a requested metric name is kept as a selected column exactly when
it is an attribute of the `SensorMetric` model class; in particular the
non-metric attribute names `location`, `sensor_type`, `sensor_id` and
`timestamp` survive the resolution and are handed to the aggregation as
columns, while `voltage` is dropped. -/
theorem metric_resolution_hasattr_spec :
    (∀ (q : SensorQuery) (name : String),
      name ∈ q.metric_column_names ↔
        name ∈ q.requested_metrics ∧ hasattr_SensorMetric name = true) ∧
    hasattr_SensorMetric "location" = true ∧
    hasattr_SensorMetric "sensor_type" = true ∧
    hasattr_SensorMetric "sensor_id" = true ∧
    hasattr_SensorMetric "timestamp" = true ∧
    hasattr_SensorMetric "voltage" = false ∧
    SensorQuery.metric_column_names qC10 =
      ["location", "sensor_type", "sensor_id", "timestamp"] := by
  refine ⟨fun q name => ?_, by decide, by decide, by decide, by decide, by decide,
    by decide⟩
  simp [SensorQuery.metric_column_names, List.mem_filter]

/-! ## Claim C8: empty effective metric set -/

/-- C8 (counterexample): for the query `qC8`, whose only requested metric
`"voltage"` is unsupported, the effective metric set is empty and the
result list is empty, yet one grouped statement is still executed against
the store (the second component of `query_sensor_data` counts executed
statements and the source has no early return), contradicting the claim
that no query is issued. -/
theorem query_empty_metrics_counterexample :
    qC8.metric_column_names = [] ∧
    query_sensor_data qC8 0 [rowC8] = ([], 1) ∧
    (query_sensor_data qC8 0 [rowC8]).2 ≠ 0 := by
  refine ⟨by decide, by decide, by decide⟩

/-- C8 (amended): whenever the effective metric set is empty after
resolution, the query returns an empty result list, but the grouped
statement is still built and executed exactly once (there is no early
return that skips the store). -/
theorem query_empty_metrics_spec :
    ∀ (q : SensorQuery) (now : Int) (db : List SensorMetric),
      q.metric_column_names = [] →
      (query_sensor_data q now db).1 = [] ∧ (query_sensor_data q now db).2 = 1 := by
  intro q now db h
  refine ⟨?_, rfl⟩
  simp only [query_sensor_data]
  rw [List.filterMap_eq_nil_iff]
  intro sid _
  simp [sensor_result, sensor_metrics, h]

/-- C8 (witness): concrete instance of `query_empty_metrics_spec`. -/
theorem query_empty_metrics_spec_witness :
    (query_sensor_data qC8 5 [rowC8]).1 = [] ∧
    (query_sensor_data qC8 5 [rowC8]).2 = 1 :=
  query_empty_metrics_spec qC8 5 [rowC8] (by decide)

/-! ## Claims C9, C2, C1: query result shaping -/

theorem first_seen_go_subset (l : List String) :
    ∀ seen x, x ∈ first_seen_go seen l → x ∈ l := by
  induction l with
  | nil => intro seen x hx; simp [first_seen_go] at hx
  | cons it rest ih =>
      intro seen x hx
      by_cases h : it ∈ seen
      · simp only [first_seen_go, if_pos h] at hx
        exact List.mem_cons_of_mem _ (ih seen x hx)
      · simp only [first_seen_go, if_neg h] at hx
        rcases List.mem_cons.1 hx with rfl | hx
        · exact List.mem_cons_self _ _
        · exact List.mem_cons_of_mem _ (ih (it :: seen) x hx)

theorem query_sensor_data_mem (q : SensorQuery) (now : Int)
    (db : List SensorMetric) (r : SensorQueryResult)
    (hr : r ∈ (query_sensor_data q now db).1) :
    r.sensor_id ∈ (db.filter (fun row => q.row_matches now row)).map
      (fun row => row.sensor_id) ∧
    r.metrics = sensor_metrics q now db r.sensor_id ∧
    r.metrics ≠ [] ∧
    r.timestamp = (q.get_date_filter now).2 := by
  simp only [query_sensor_data] at hr
  rw [List.mem_filterMap] at hr
  obtain ⟨sid, hsid, hf⟩ := hr
  simp only [sensor_result] at hf
  by_cases hm : sensor_metrics q now db sid = []
  · rw [if_pos hm] at hf
    exact absurd hf (by simp)
  · rw [if_neg hm] at hf
    obtain rfl := Option.some.inj hf
    exact ⟨first_seen_go_subset _ [] sid hsid, rfl, hm, rfl⟩

/-- C9: every `SensorQueryResult` produced by a query carries the query's
end-of-range date as its representative timestamp, never a per-row reading
timestamp. -/
theorem query_result_timestamp_spec :
    ∀ (q : SensorQuery) (now : Int) (db : List SensorMetric),
      ∀ r ∈ (query_sensor_data q now db).1,
        r.timestamp = (q.get_date_filter now).2 := by
  intro q now db r hr
  exact (query_sensor_data_mem q now db r hr).2.2.2

/-- C9 (witness): the single result produced for `rowC8` under `qC9`
carries the query's end date `100`, not the row timestamp `50`. -/
theorem query_result_timestamp_spec_witness :
    ({ sensor_id := "s1",
       metrics := [{ metric := "temperature", value := 5, statistic := "min" }],
       timestamp := 100 } : SensorQueryResult).timestamp =
      (qC9.get_date_filter 0).2 :=
  query_result_timestamp_spec qC9 0 [rowC8]
    { sensor_id := "s1",
      metrics := [{ metric := "temperature", value := 5, statistic := "min" }],
      timestamp := 100 } (by decide)

/-- C2: every returned `SensorQueryResult` has a non-empty metrics list
containing exactly one `MetricResult` per selected column with non-NULL
aggregate (carrying that aggregate and the statistic name), and belongs to
a sensor with at least one row in range; consequently a sensor with no
rows in the requested range is entirely absent from the result list. -/
theorem query_result_shape_spec :
    ∀ (q : SensorQuery) (now : Int) (db : List SensorMetric),
      (∀ n ∈ q.metric_column_names, n ∈ numeric_metric_columns) →
      (∀ r ∈ (query_sensor_data q now db).1,
        r.metrics ≠ [] ∧
        (∀ mr ∈ r.metrics,
          mr.metric ∈ q.metric_column_names ∧
          group_agg q now db r.sensor_id mr.metric = some mr.value ∧
          mr.statistic = q.statistic.value) ∧
        (∀ name ∈ q.metric_column_names, ∀ v : ℚ,
          group_agg q now db r.sensor_id name = some v →
          ({ metric := name, value := v, statistic := q.statistic.value } :
            MetricResult) ∈ r.metrics) ∧
        (∃ row ∈ db, q.row_matches now row = true ∧ row.sensor_id = r.sensor_id)) ∧
      (∀ sid : String,
        (∀ row ∈ db, q.row_matches now row = true → row.sensor_id ≠ sid) →
        ∀ r ∈ (query_sensor_data q now db).1, r.sensor_id ≠ sid) := by
  intro q now db _
  have main : ∀ r ∈ (query_sensor_data q now db).1,
      r.metrics ≠ [] ∧
      (∀ mr ∈ r.metrics,
        mr.metric ∈ q.metric_column_names ∧
        group_agg q now db r.sensor_id mr.metric = some mr.value ∧
        mr.statistic = q.statistic.value) ∧
      (∀ name ∈ q.metric_column_names, ∀ v : ℚ,
        group_agg q now db r.sensor_id name = some v →
        ({ metric := name, value := v, statistic := q.statistic.value } :
          MetricResult) ∈ r.metrics) ∧
      (∃ row ∈ db, q.row_matches now row = true ∧ row.sensor_id = r.sensor_id) := by
    intro r hr
    obtain ⟨hsid, hmet, hne, _⟩ := query_sensor_data_mem q now db r hr
    refine ⟨hne, ?_, ?_, ?_⟩
    · intro mr hmr
      rw [hmet] at hmr
      rw [sensor_metrics, List.mem_filterMap] at hmr
      obtain ⟨name, hname, heq⟩ := hmr
      obtain ⟨v, hv, rfl⟩ := Option.map_eq_some'.1 heq
      exact ⟨hname, hv, rfl⟩
    · intro name hname v hv
      rw [hmet, sensor_metrics, List.mem_filterMap]
      exact ⟨name, hname, by rw [hv]; rfl⟩
    · obtain ⟨row, hrow, heq⟩ := List.mem_map.1 hsid
      obtain ⟨hdb, hmatch⟩ := List.mem_filter.1 hrow
      exact ⟨row, hdb, hmatch, heq⟩
  refine ⟨main, ?_⟩
  intro sid hnone r hr heq
  obtain ⟨row, hdb, hmatch, hrowid⟩ := (main r hr).2.2.2
  exact hnone row hdb hmatch (hrowid.trans heq)

/-- C2 (witness): concrete instance of `query_result_shape_spec` on a
store holding one row: the produced result's metric carries the non-null
aggregate, and the sensor `"s2"`, which has no row in range, is absent. -/
theorem query_result_shape_spec_witness :
    ({ metric := "temperature", value := 5, statistic := "min" } :
      MetricResult).metric ∈ SensorQuery.metric_column_names qC9 ∧
    ∀ r ∈ (query_sensor_data qC9 0 [rowC8]).1, r.sensor_id ≠ "s2" :=
  ⟨(((query_result_shape_spec qC9 0 [rowC8] (by decide)).1
      { sensor_id := "s1",
        metrics := [{ metric := "temperature", value := 5, statistic := "min" }],
        timestamp := 100 } (by decide)).2.1
      { metric := "temperature", value := 5, statistic := "min" } (by decide)).1,
   (query_result_shape_spec qC9 0 [rowC8] (by decide)).2 "s2" (by decide)⟩

theorem agg_singleton (s : Statistic) (x : ℚ) : s.agg [x] = some x := by
  cases s <;> simp [Statistic.agg]

/-- C1: storing a single reading into an empty store and immediately
querying with a range covering its timestamp and filters including its
sensor and a metric it reports returns that metric's value unchanged, for
every statistic (`min`, `max`, `sum`, `average` alike). -/
theorem store_then_query_single_reading :
    ∀ (data : SensorData) (m : MetricType) (x : ℚ) (q : SensorQuery) (now : Int),
      dictGet data.metrics m.value = some x →
      m.value ∈ q.metric_column_names →
      (∀ n ∈ q.metric_column_names, n ∈ numeric_metric_columns) →
      (q.sensor_ids = none ∨ ∃ l, q.sensor_ids = some l ∧ data.sensor_id ∈ l) →
      (q.get_date_filter now).1 ≤ data.timestamp →
      data.timestamp ≤ (q.get_date_filter now).2 →
      ∃ ms : List MetricResult,
        (query_sensor_data q now (store_sensor_data [] data)).1 =
          [{ sensor_id := data.sensor_id, metrics := ms,
             timestamp := (q.get_date_filter now).2 }] ∧
        ({ metric := m.value, value := x, statistic := q.statistic.value } :
          MetricResult) ∈ ms := by
  intro data m x q now hx hmem _ hsensor hlo hhi
  have hsid : data.to_db_record.sensor_id = data.sensor_id := rfl
  have hmatch : q.row_matches now data.to_db_record = true := by
    have ht : data.to_db_record.timestamp = data.timestamp := rfl
    simp only [SensorQuery.row_matches, Bool.and_eq_true, decide_eq_true_eq]
    refine ⟨⟨?_, by rw [ht]; exact hlo⟩, by rw [ht]; exact hhi⟩
    rcases hsensor with h | ⟨l, hl, hin⟩
    · rw [h]
    · rw [hl]
      show (if l = [] then true else decide (data.to_db_record.sensor_id ∈ l)) = true
      rcases l with _ | ⟨hd, tl⟩
      · simp at hin
      · rw [if_neg (by simp)]
        rw [hsid]
        simpa using hin
  have hdb : store_sensor_data [] data = [data.to_db_record] := rfl
  have hfilter : (store_sensor_data [] data).filter (fun r => q.row_matches now r) =
      [data.to_db_record] := by
    rw [hdb, List.filter_cons_of_pos hmatch, List.filter_nil]
  have hgrp : group_rows q now (store_sensor_data [] data) data.sensor_id =
      [data.to_db_record] := by
    rw [group_rows, hfilter]
    rw [List.filter_cons_of_pos (by simp [hsid]), List.filter_nil]
  have hcol : column_value m.value data.to_db_record = some x := by
    cases m <;>
      simpa [column_value, MetricType.value, SensorData.to_db_record,
        SensorMetric.from_sensor_data] using hx
  have hagg : group_agg q now (store_sensor_data [] data) data.sensor_id m.value =
      some x := by
    rw [group_agg, hgrp]
    simp only [List.filterMap_cons, hcol, List.filterMap_nil]
    exact agg_singleton q.statistic x
  have hmr : ({ metric := m.value, value := x, statistic := q.statistic.value } :
      MetricResult) ∈ sensor_metrics q now (store_sensor_data [] data) data.sensor_id := by
    rw [sensor_metrics, List.mem_filterMap]
    exact ⟨m.value, hmem, by rw [hagg]; rfl⟩
  have hne : sensor_metrics q now (store_sensor_data [] data) data.sensor_id ≠ [] :=
    List.ne_nil_of_mem hmr
  have hres : sensor_result q now (store_sensor_data [] data) data.sensor_id =
      some { sensor_id := data.sensor_id,
             metrics := sensor_metrics q now (store_sensor_data [] data) data.sensor_id,
             timestamp := (q.get_date_filter now).2 } := by
    rw [sensor_result, if_neg hne]
  refine ⟨sensor_metrics q now (store_sensor_data [] data) data.sensor_id, ?_, hmr⟩
  simp only [query_sensor_data]
  rw [hfilter]
  simp only [List.map_cons, List.map_nil, hsid]
  have hfs : first_seen [data.sensor_id] = [data.sensor_id] := by
    simp [first_seen, first_seen_go]
  rw [hfs, List.filterMap_cons, List.filterMap_nil, hres]

/-- C1 (witness): concrete instance of `store_then_query_single_reading`
with the `min` statistic. -/
theorem store_then_query_single_reading_witness :
    ∃ ms : List MetricResult,
      (query_sensor_data
          { sensor_ids := some ["s1"], metrics := ["temperature"],
            statistic := .MIN, start_date := some 0, end_date := some 100 } 0
          (store_sensor_data []
            { sensor_id := "s1", metrics := [("temperature", 5)],
              timestamp := 50, location := "room", sensor_type := "thermo" })).1 =
        [{ sensor_id := "s1", metrics := ms,
           timestamp := (SensorQuery.get_date_filter
             { sensor_ids := some ["s1"], metrics := ["temperature"],
               statistic := .MIN, start_date := some 0, end_date := some 100 } 0).2 }] ∧
      ({ metric := "temperature", value := 5, statistic := "min" } :
        MetricResult) ∈ ms :=
  store_then_query_single_reading
    { sensor_id := "s1", metrics := [("temperature", 5)], timestamp := 50,
      location := "room", sensor_type := "thermo" }
    .TEMPERATURE 5
    { sensor_ids := some ["s1"], metrics := ["temperature"], statistic := .MIN,
      start_date := some 0, end_date := some 100 } 0
    (by decide) (by decide) (by decide)
    (Or.inr ⟨["s1"], rfl, by decide⟩) (by decide) (by decide)
